import Mathlib

/-!
Verification of the ESP32 sampler-publisher sketch
(`docs/ESP32_CLIENT_EXAMPLE.cpp`).

The sketch is a flat polling loop over global mutable state.  We embed it
as a pure step function `loopStep : LoopState → Input → LoopState × Option HttpRequest`,
where an `Input` carries everything the environment supplies during one
iteration of `loop()`: the millisecond clock, the raw vibration pin level,
the raw gas ADC value, and the WiFi connectivity status.

Timestamps (`millis()` and the globals `lastReadTime` / `lastSendTime`,
C type `unsigned long`, 32 bits wide on this platform) are modelled as
unbounded natural numbers — ghost true times — and every arithmetic use
reduces them modulo `2 ^ 32`, which is exactly the value the 32-bit
unsigned machine word holds, so the embedding computes the same due-checks
as the hardware while keeping the true timeline available for temporal
statements.  C `int` fields are modelled as `ℤ`.
-/

/-- Modulus of the 32-bit `unsigned long` used by `millis()` and the timers. -/
def ULONG_MOD : ℕ := 4294967296

/-- Backend endpoint URL (source line 14). -/
def BACKEND_URL : String := "http://192.168.137.1:5000/ingest_esp32"

/-- Device identifier (source line 15). -/
def DEVICE_ID : String := "esp32_001"

/-- Static bearer token (source line 18). -/
def API_KEY : String := "_v13iKLTqgwxUe3SWta8x7PGvqjAYhkAWw63dhA6Nec"

/-- Sample interval in milliseconds (source line 24). -/
def READ_INTERVAL : ℕ := 30

/-- Publish interval in milliseconds (source line 25). -/
def SEND_INTERVAL : ℕ := 200

/-- Gas threshold for the WARNING tier (literal `3500` at source line 109). -/
def WARNING_THRESHOLD : ℤ := 3500

/-- Gas threshold for the RISK tier (literal `4000` at source line 108). -/
def RISK_THRESHOLD : ℤ := 4000

/-- The global mutable state of the sketch (source lines 21-33):
timers `lastReadTime` / `lastSendTime` (kept as ghost true times, reduced
mod `2 ^ 32` wherever the machine word is read) and the sampled data
`eventCount`, `lastReading`, `currentReading`, `gasRaw`, `gasStatus`. -/
structure LoopState where
  lastReadTime : ℕ
  lastSendTime : ℕ
  eventCount : ℤ
  lastReading : ℤ
  currentReading : ℤ
  gasRaw : ℤ
  gasStatus : String
  deriving DecidableEq, Repr

/-- Environment inputs consumed by one iteration of `loop()`:
`now` is the ghost true millisecond time (the machine sees `now % 2 ^ 32`),
`vibHigh` is the raw digital level of `VIB_PIN` (`digitalRead` HIGH),
`gasVal` is the ADC value returned by `analogRead(GAS_PIN)`, and
`connected` tells whether `WiFi.status() == WL_CONNECTED`. -/
structure Input where
  now : ℕ
  vibHigh : Bool
  gasVal : ℤ
  connected : Bool
  deriving DecidableEq, Repr

/-- An outbound HTTP request as assembled by `sendToBackend`:
`http.begin(BACKEND_URL)`, two `addHeader` calls, then `http.POST(payload)`. -/
structure HttpRequest where
  method : String
  url : String
  headers : List (String × String)
  body : String
  deriving DecidableEq, Repr

/-- Unsigned 32-bit subtraction `a - b` as C computes it on `unsigned long`
operands already reduced mod `2 ^ 32`. -/
def sub32 (a b : ℕ) : ℕ :=
  (a + ULONG_MOD - b) % ULONG_MOD

/-- The due-check `now - lastReadTime >= READ_INTERVAL` (source line 98),
evaluated on the 32-bit values of the two ghost times. -/
abbrev sampleDueAt (last now : ℕ) : Prop :=
  READ_INTERVAL ≤ sub32 (now % ULONG_MOD) (last % ULONG_MOD)

/-- The due-check `now - lastSendTime >= SEND_INTERVAL` (source line 114),
evaluated on the 32-bit values of the two ghost times. -/
abbrev sendDueAt (last now : ℕ) : Prop :=
  SEND_INTERVAL ≤ sub32 (now % ULONG_MOD) (last % ULONG_MOD)

/-- Gas classification (source lines 108-110):
`gasRaw >= 4000` gives RISK, else `gasRaw >= 3500` gives WARNING,
else MEDIUM. -/
def gasClassify (g : ℤ) : String :=
  if g ≥ 4000 then "RISK"
  else if g ≥ 3500 then "WARNING"
  else "MEDIUM"

/-- The sensor-read block of `loop()` (source lines 98-111), executed when
the sample timer is due: set `lastReadTime = now`, read
`reading = !digitalRead(VIB_PIN)` (active-low, so HIGH maps to 0 and LOW
to 1), read `gasRaw`, set `currentReading`, increment `eventCount` exactly
when `reading == 1 && lastReading == 0`, set `lastReading = reading`, and
classify `gasRaw`. -/
def sampleStep (st : LoopState) (inp : Input) : LoopState :=
  let reading : ℤ := if inp.vibHigh then 0 else 1
  { st with
    lastReadTime := inp.now
    gasRaw := inp.gasVal
    currentReading := reading
    eventCount :=
      if reading = 1 ∧ st.lastReading = 0 then st.eventCount + 1
      else st.eventCount
    lastReading := reading
    gasStatus := gasClassify inp.gasVal }

/-- The JSON payload built by string concatenation in `sendToBackend`
(source lines 50-56). -/
def buildPayload (st : LoopState) : String :=
  "\x7b" ++
  "\"device_id\":\"" ++ DEVICE_ID ++ "\"," ++
  "\"vibration\":" ++ toString st.currentReading ++ "," ++
  "\"event_count\":" ++ toString st.eventCount ++ "," ++
  "\"gas_raw\":" ++ toString st.gasRaw ++ "," ++
  "\"gas_status\":\"" ++ st.gasStatus ++ "\"" ++
  "\x7d"

/-- `sendToBackend` (source lines 36-69).  When WiFi is not connected it
only logs and returns (no request).  Otherwise it issues a single POST to
`BACKEND_URL` with the two headers added at lines 46-48 and the
concatenated JSON payload.  It assigns none of the sketch globals, so the
state passes through unchanged. -/
def sendToBackend (st : LoopState) (connected : Bool) :
    LoopState × Option HttpRequest :=
  if connected then
    (st, some
      { method := "POST"
        url := BACKEND_URL
        headers :=
          [("Content-Type", "application/json"),
           ("Authorization", "Bearer " ++ API_KEY)]
        body := buildPayload st })
  else
    (st, none)

/-- The send block of `loop()` (source lines 114-117): when the publish
timer is due, set `lastSendTime = now` and call `sendToBackend`. -/
def publishStep (st : LoopState) (inp : Input) :
    LoopState × Option HttpRequest :=
  if sendDueAt st.lastSendTime inp.now then
    sendToBackend { st with lastSendTime := inp.now } inp.connected
  else
    (st, none)

/-- One full iteration of `loop()` (source lines 94-118): read the clock,
run the sensor-read block if due, then run the send block if due. -/
def loopStep (st : LoopState) (inp : Input) :
    LoopState × Option HttpRequest :=
  let st1 := if sampleDueAt st.lastReadTime inp.now then sampleStep st inp else st
  publishStep st1 inp

/-- The initial values of the sketch globals (source lines 21-33). -/
def initState : LoopState :=
  { lastReadTime := 0
    lastSendTime := 0
    eventCount := 0
    lastReading := 0
    currentReading := 0
    gasRaw := 0
    gasStatus := "MEDIUM" }

/-- The state entering iteration `n` of a run of `loop()` driven by the
input stream `f` (so `stateAt f 0 = initState`). -/
def stateAt (f : ℕ → Input) : ℕ → LoopState
  | 0 => initState
  | n + 1 => (loopStep (stateAt f n) (f n)).1

/-- The sensor-read block fires at iteration `k` of the run driven by `f`. -/
abbrev sampleFires (f : ℕ → Input) (k : ℕ) : Prop :=
  sampleDueAt (stateAt f k).lastReadTime (f k).now

/-- The send block fires at iteration `k` of the run driven by `f`. -/
abbrev sendFires (f : ℕ → Input) (k : ℕ) : Prop :=
  sendDueAt (stateAt f k).lastSendTime (f k).now

/-- Successive values of `eventCount` as the sensor-read block processes a
list of raw vibration pin levels, one sample per element. -/
def eventCountTrace : LoopState → List Bool → List ℤ
  | _, [] => []
  | st, b :: bs =>
    let st2 := sampleStep st { now := 0, vibHigh := b, gasVal := 0, connected := false }
    st2.eventCount :: eventCountTrace st2 bs

/-- Raw pin levels whose active-low inversion is the vibration sequence
`[0,0,1,1,0,1]` of the spec scenario. -/
def vibScenario : List Bool := [true, true, false, false, true, false]

/-- A concrete input stream used to exhibit runs of the loop: the clock
advances by `SEND_INTERVAL` every iteration, the vibration pin stays HIGH,
the gas value is 0, and WiFi is disconnected. -/
def witInput (n : ℕ) : Input :=
  { now := 200 * (n + 1), vibHigh := true, gasVal := 0, connected := false }

/-- The concrete state of the publish scenario: `vibration=1`,
`eventCount=2`, `gasRaw=4000`, `gasStatus="RISK"`. -/
def scenarioState : LoopState :=
  { initState with
    currentReading := 1
    eventCount := 2
    gasRaw := 4000
    gasStatus := "RISK" }

/-! ### Helper lemmas about the step functions -/

lemma sendToBackend_fst (st : LoopState) (c : Bool) :
    (sendToBackend st c).1 = st := by
  cases c <;> rfl

lemma sampleStep_lastSendTime (st : LoopState) (inp : Input) :
    (sampleStep st inp).lastSendTime = st.lastSendTime := rfl

lemma publishStep_fst (st : LoopState) (inp : Input) :
    (publishStep st inp).1 =
      if sendDueAt st.lastSendTime inp.now then
        { st with lastSendTime := inp.now }
      else st := by
  unfold publishStep
  split
  · exact sendToBackend_fst _ _
  · rfl

lemma loopStep_fst (st : LoopState) (inp : Input) :
    (loopStep st inp).1 =
      if sendDueAt st.lastSendTime inp.now then
        { (if sampleDueAt st.lastReadTime inp.now then sampleStep st inp else st) with
            lastSendTime := inp.now }
      else
        (if sampleDueAt st.lastReadTime inp.now then sampleStep st inp else st) := by
  show (publishStep (if sampleDueAt st.lastReadTime inp.now then sampleStep st inp else st) inp).1 = _
  rw [publishStep_fst]
  by_cases hs : sampleDueAt st.lastReadTime inp.now <;>
    simp [hs, sampleStep_lastSendTime]

lemma loopStep_lastReadTime (st : LoopState) (inp : Input) :
    (loopStep st inp).1.lastReadTime =
      if sampleDueAt st.lastReadTime inp.now then inp.now else st.lastReadTime := by
  rw [loopStep_fst]
  by_cases h1 : sampleDueAt st.lastReadTime inp.now <;>
    by_cases h2 : sendDueAt st.lastSendTime inp.now <;>
      simp [h1, h2, sampleStep]

lemma loopStep_lastSendTime (st : LoopState) (inp : Input) :
    (loopStep st inp).1.lastSendTime =
      if sendDueAt st.lastSendTime inp.now then inp.now else st.lastSendTime := by
  rw [loopStep_fst]
  by_cases h1 : sampleDueAt st.lastReadTime inp.now <;>
    by_cases h2 : sendDueAt st.lastSendTime inp.now <;>
      simp [h1, h2, sampleStep]

lemma loopStep_lastReading (st : LoopState) (inp : Input) :
    (loopStep st inp).1.lastReading =
      if sampleDueAt st.lastReadTime inp.now then (if inp.vibHigh then 0 else 1)
      else st.lastReading := by
  rw [loopStep_fst]
  by_cases h1 : sampleDueAt st.lastReadTime inp.now <;>
    by_cases h2 : sendDueAt st.lastSendTime inp.now <;>
      simp [h1, h2, sampleStep]

lemma loopStep_eventCount (st : LoopState) (inp : Input) :
    (loopStep st inp).1.eventCount =
      if sampleDueAt st.lastReadTime inp.now then (sampleStep st inp).eventCount
      else st.eventCount := by
  rw [loopStep_fst]
  by_cases h1 : sampleDueAt st.lastReadTime inp.now <;>
    by_cases h2 : sendDueAt st.lastSendTime inp.now <;>
      simp [h1, h2]

lemma stateAt_succ (f : ℕ → Input) (n : ℕ) :
    stateAt f (n + 1) = (loopStep (stateAt f n) (f n)).1 := rfl

/-! ### Claims -/

/-- C1: `eventCount` increases by exactly 1 on each false-to-true
transition of the (active-low, logically inverted) triggered state between
the previous and the current sample, and by 0 on every other transition;
the triggered sequence `[0,0,1,1,0,1]`, one sample per element from the
initial state, yields the `eventCount` sequence `[0,0,1,1,1,2]`. -/
theorem c1_event_edge_counting :
    (∀ (f : ℕ → Input) (n : ℕ),
      (stateAt f n).lastReading = 0 ∨ (stateAt f n).lastReading = 1) ∧
    (∀ (st : LoopState) (inp : Input),
      st.lastReading = 0 ∨ st.lastReading = 1 →
      ((st.lastReading = 0 ∧ inp.vibHigh = false →
          (sampleStep st inp).eventCount = st.eventCount + 1) ∧
       (st.lastReading = 1 ∨ inp.vibHigh = true →
          (sampleStep st inp).eventCount = st.eventCount))) ∧
    vibScenario.map (fun b => if b then (0 : ℤ) else 1) = [0, 0, 1, 1, 0, 1] ∧
    eventCountTrace initState vibScenario = [0, 0, 1, 1, 1, 2] := by
  refine ⟨?_, ?_, by decide, by decide⟩
  · intro f n
    induction n with
    | zero => exact Or.inl rfl
    | succ n ih =>
      rw [stateAt_succ, loopStep_lastReading]
      split
      · cases (f n).vibHigh <;> simp
      · exact ih
  · intro st inp _
    constructor
    · rintro ⟨h0, hv⟩
      simp [sampleStep, hv, h0]
    · rintro (h1 | hv)
      · simp [sampleStep, h1]
      · simp [sampleStep, hv]

/-- Witness for C1 at a concrete rising edge: previous triggered state
false (`lastReading = 0`), current raw pin LOW so triggered is true, and
`eventCount` increments by exactly 1. -/
theorem c1_event_edge_counting_witness :
    (initState.lastReading = 0 ∨ initState.lastReading = 1) ∧
    (initState.lastReading = 0 ∧ (Input.mk 0 false 0 false).vibHigh = false) ∧
    (sampleStep initState (Input.mk 0 false 0 false)).eventCount =
      initState.eventCount + 1 :=
  ⟨by decide, by decide,
   (c1_event_edge_counting.2.1 initState (Input.mk 0 false 0 false)
     (by decide)).1 (by decide)⟩

/-- C2: the gas status written by a sample step is the pure threshold
classification of the sampled `gasRaw`: at least `RISK_THRESHOLD` (4000)
gives RISK, at least `WARNING_THRESHOLD` (3500) but below
`RISK_THRESHOLD` gives WARNING, below `WARNING_THRESHOLD` gives MEDIUM,
with boundary values falling into the higher-severity tier; in particular
3400 is MEDIUM, 3500 and 3999 are WARNING, and 4000 is RISK. -/
theorem c2_gas_classification :
    (∀ (st : LoopState) (inp : Input),
      (sampleStep st inp).gasStatus = gasClassify inp.gasVal) ∧
    (∀ g : ℤ, RISK_THRESHOLD ≤ g → gasClassify g = "RISK") ∧
    (∀ g : ℤ, WARNING_THRESHOLD ≤ g → g < RISK_THRESHOLD →
      gasClassify g = "WARNING") ∧
    (∀ g : ℤ, g < WARNING_THRESHOLD → gasClassify g = "MEDIUM") ∧
    gasClassify 3400 = "MEDIUM" ∧ gasClassify 3500 = "WARNING" ∧
    gasClassify 3999 = "WARNING" ∧ gasClassify 4000 = "RISK" := by
  refine ⟨fun st inp => rfl, ?_, ?_, ?_, by decide, by decide, by decide, by decide⟩
  · intro g hg
    unfold RISK_THRESHOLD at hg
    unfold gasClassify
    rw [if_pos (by omega)]
  · intro g h1 h2
    unfold WARNING_THRESHOLD at h1
    unfold RISK_THRESHOLD at h2
    unfold gasClassify
    rw [if_neg (by omega), if_pos (by omega)]
  · intro g h
    unfold WARNING_THRESHOLD at h
    unfold gasClassify
    rw [if_neg (by omega), if_neg (by omega)]

/-- Witness for C2 at the three boundary-relevant inputs 4000, 3500
and 3400. -/
theorem c2_gas_classification_witness :
    (RISK_THRESHOLD ≤ 4000 ∧ gasClassify 4000 = "RISK") ∧
    (WARNING_THRESHOLD ≤ 3500 ∧ (3500 : ℤ) < RISK_THRESHOLD ∧
      gasClassify 3500 = "WARNING") ∧
    ((3400 : ℤ) < WARNING_THRESHOLD ∧ gasClassify 3400 = "MEDIUM") :=
  ⟨⟨by decide, c2_gas_classification.2.1 4000 (by decide)⟩,
   ⟨by decide, by decide,
    c2_gas_classification.2.2.1 3500 (by decide) (by decide)⟩,
   ⟨by decide, c2_gas_classification.2.2.2.1 3400 (by decide)⟩⟩

/-- C3: a connected publish sends exactly one POST with headers
`Content-Type: application/json` and `Authorization: Bearer <API_KEY>`,
whose body is the JSON object with exactly the fields `device_id`,
`vibration`, `event_count`, `gas_raw`, `gas_status` built from the current
sampled state; the scenario state produces the exact claimed body. -/
theorem c3_publish_request :
    (∀ st : LoopState,
      sendToBackend st true =
        (st, some
          { method := "POST"
            url := BACKEND_URL
            headers :=
              [("Content-Type", "application/json"),
               ("Authorization", "Bearer " ++ API_KEY)]
            body := buildPayload st })) ∧
    buildPayload scenarioState =
      "\x7b\"device_id\":\"esp32_001\",\"vibration\":1,\"event_count\":2,\"gas_raw\":4000,\"gas_status\":\"RISK\"\x7d" :=
  ⟨fun _ => rfl, by decide⟩

/-- C4: at a publish-due instant with WiFi disconnected, no request is
produced and the only state change is `lastSendTime` advancing to the
current clock value. -/
theorem c4_skip_offline :
    ∀ (st : LoopState) (inp : Input),
      sendDueAt st.lastSendTime inp.now → inp.connected = false →
      (publishStep st inp).2 = none ∧
      (publishStep st inp).1.lastSendTime = inp.now ∧
      (publishStep st inp).1.lastReadTime = st.lastReadTime ∧
      (publishStep st inp).1.eventCount = st.eventCount ∧
      (publishStep st inp).1.lastReading = st.lastReading ∧
      (publishStep st inp).1.currentReading = st.currentReading ∧
      (publishStep st inp).1.gasRaw = st.gasRaw ∧
      (publishStep st inp).1.gasStatus = st.gasStatus := by
  intro st inp hdue hc
  unfold publishStep
  rw [if_pos hdue]
  unfold sendToBackend
  rw [hc]
  simp

/-- Witness for C4: from the initial state at clock 200 with WiFi down,
the publish window is due, no request is emitted, and `lastSendTime`
advances to 200. -/
theorem c4_skip_offline_witness :
    sendDueAt initState.lastSendTime (Input.mk 200 true 0 false).now ∧
    (Input.mk 200 true 0 false).connected = false ∧
    (publishStep initState (Input.mk 200 true 0 false)).2 = none ∧
    (publishStep initState (Input.mk 200 true 0 false)).1.lastSendTime =
      (Input.mk 200 true 0 false).now :=
  ⟨by decide, rfl,
   (c4_skip_offline initState (Input.mk 200 true 0 false) (by decide) rfl).1,
   (c4_skip_offline initState (Input.mk 200 true 0 false) (by decide) rfl).2.1⟩

/-- C5: `eventCount` never decreases across a full loop iteration
(sample and publish blocks included), and it is non-negative in every
state reachable from the initial state under any input stream. -/
theorem c5_eventCount_monotone :
    (∀ (st : LoopState) (inp : Input),
      st.eventCount ≤ (loopStep st inp).1.eventCount) ∧
    (∀ (f : ℕ → Input) (n : ℕ), 0 ≤ (stateAt f n).eventCount) := by
  have hstep : ∀ (st : LoopState) (inp : Input),
      st.eventCount ≤ (loopStep st inp).1.eventCount := by
    intro st inp
    rw [loopStep_eventCount]
    split
    · simp only [sampleStep]
      split <;> omega
    · exact le_refl _
  refine ⟨hstep, ?_⟩
  intro f n
  induction n with
  | zero => exact le_refl _
  | succ n ih =>
    rw [stateAt_succ]
    exact le_trans ih (hstep _ _)

/-! ### Temporal lemmas for the two due-timers -/

lemma sub32_mod_eq (t1 t2 : ℕ) (h : t1 ≤ t2) :
    sub32 (t2 % ULONG_MOD) (t1 % ULONG_MOD) = (t2 - t1) % ULONG_MOD := by
  unfold sub32 ULONG_MOD
  omega

lemma sampleDue_gap (t1 t2 : ℕ) (h : t1 ≤ t2) (hd : sampleDueAt t1 t2) :
    READ_INTERVAL ≤ t2 - t1 := by
  unfold sampleDueAt sub32 READ_INTERVAL ULONG_MOD at hd
  unfold READ_INTERVAL
  omega

lemma sendDue_gap (t1 t2 : ℕ) (h : t1 ≤ t2) (hd : sendDueAt t1 t2) :
    SEND_INTERVAL ≤ t2 - t1 := by
  unfold sendDueAt sub32 SEND_INTERVAL ULONG_MOD at hd
  unfold SEND_INTERVAL
  omega

lemma lastRead_frozen (f : ℕ → Input) (i : ℕ) :
    ∀ j, i + 1 ≤ j → (∀ k, i < k → k < j → ¬ sampleFires f k) →
      (stateAt f j).lastReadTime = (stateAt f (i + 1)).lastReadTime := by
  intro j hij
  induction j, hij using Nat.le_induction with
  | base => intro _; rfl
  | succ n hn ih =>
    intro h
    rw [stateAt_succ, loopStep_lastReadTime,
        if_neg (h n (by omega) (by omega))]
    exact ih fun k h1 h2 => h k h1 (by omega)

lemma lastSend_frozen (f : ℕ → Input) (i : ℕ) :
    ∀ j, i + 1 ≤ j → (∀ k, i < k → k < j → ¬ sendFires f k) →
      (stateAt f j).lastSendTime = (stateAt f (i + 1)).lastSendTime := by
  intro j hij
  induction j, hij using Nat.le_induction with
  | base => intro _; rfl
  | succ n hn ih =>
    intro h
    rw [stateAt_succ, loopStep_lastSendTime,
        if_neg (h n (by omega) (by omega))]
    exact ih fun k h1 h2 => h k h1 (by omega)

/-- C6: along any run with a monotone clock, two consecutive firings of
the sensor-read block are at least `READ_INTERVAL` (30 ms) apart on the
monotonic clock, and two consecutive firings of the send block are at
least `SEND_INTERVAL` (200 ms) apart, regardless of how many loop
iterations happen in between. -/
theorem c6_min_spacing :
    ∀ f : ℕ → Input, (∀ k, (f k).now ≤ (f (k + 1)).now) →
    ∀ i j : ℕ, i < j →
      ((sampleFires f i ∧ sampleFires f j ∧
          (∀ k, i < k → k < j → ¬ sampleFires f k)) →
        READ_INTERVAL ≤ (f j).now - (f i).now) ∧
      ((sendFires f i ∧ sendFires f j ∧
          (∀ k, i < k → k < j → ¬ sendFires f k)) →
        SEND_INTERVAL ≤ (f j).now - (f i).now) := by
  intro f hmono i j hij
  have mono : Monotone fun n => (f n).now := monotone_nat_of_le_succ hmono
  constructor
  · rintro ⟨hi, hj, hbet⟩
    have e1 : (stateAt f j).lastReadTime = (f i).now := by
      rw [lastRead_frozen f i j hij hbet, stateAt_succ, loopStep_lastReadTime,
          if_pos hi]
    have hj2 := hj
    unfold sampleFires at hj2
    rw [e1] at hj2
    exact sampleDue_gap _ _ (mono (le_of_lt hij)) hj2
  · rintro ⟨hi, hj, hbet⟩
    have e1 : (stateAt f j).lastSendTime = (f i).now := by
      rw [lastSend_frozen f i j hij hbet, stateAt_succ, loopStep_lastSendTime,
          if_pos hi]
    have hj2 := hj
    unfold sendFires at hj2
    rw [e1] at hj2
    exact sendDue_gap _ _ (mono (le_of_lt hij)) hj2

/-- Witness for C6: along the `witInput` run (clock advancing 200 ms per
iteration) both blocks fire at iterations 0 and 1, which are consecutive
firings, and the clock gap is at least 30 and at least 200. -/
theorem c6_min_spacing_witness :
    (∀ k, (witInput k).now ≤ (witInput (k + 1)).now) ∧
    (0 : ℕ) < 1 ∧
    sampleFires witInput 0 ∧ sampleFires witInput 1 ∧
    sendFires witInput 0 ∧ sendFires witInput 1 ∧
    READ_INTERVAL ≤ (witInput 1).now - (witInput 0).now ∧
    SEND_INTERVAL ≤ (witInput 1).now - (witInput 0).now := by
  have hmono : ∀ k, (witInput k).now ≤ (witInput (k + 1)).now := by
    intro k
    show 200 * (k + 1) ≤ 200 * (k + 1 + 1)
    omega
  refine ⟨hmono, by decide, by decide, by decide, by decide, by decide, ?_, ?_⟩
  · exact (c6_min_spacing witInput hmono 0 1 (by decide)).1
      ⟨by decide, by decide, fun k h1 h2 => absurd h1 (by omega)⟩
  · exact (c6_min_spacing witInput hmono 0 1 (by decide)).2
      ⟨by decide, by decide, fun k h1 h2 => absurd h1 (by omega)⟩

/-- C7: with a monotone clock, the two timer variables start at 0 and in
every reachable state are at most the current clock reading. -/
theorem c7_timers_bounded :
    ∀ f : ℕ → Input, (∀ k, (f k).now ≤ (f (k + 1)).now) →
      (initState.lastReadTime = 0 ∧ initState.lastSendTime = 0) ∧
      ∀ n, (stateAt f n).lastReadTime ≤ (f n).now ∧
        (stateAt f n).lastSendTime ≤ (f n).now := by
  intro f hmono
  refine ⟨⟨rfl, rfl⟩, ?_⟩
  intro n
  induction n with
  | zero => exact ⟨Nat.zero_le _, Nat.zero_le _⟩
  | succ n ih =>
    constructor
    · rw [stateAt_succ, loopStep_lastReadTime]
      split
      · exact hmono n
      · exact le_trans ih.1 (hmono n)
    · rw [stateAt_succ, loopStep_lastSendTime]
      split
      · exact hmono n
      · exact le_trans ih.2 (hmono n)

/-- Witness for C7 on the concrete run `witInput` at iteration 2. -/
theorem c7_timers_bounded_witness :
    (∀ k, (witInput k).now ≤ (witInput (k + 1)).now) ∧
    ((stateAt witInput 2).lastReadTime ≤ (witInput 2).now ∧
     (stateAt witInput 2).lastSendTime ≤ (witInput 2).now) := by
  have hmono : ∀ k, (witInput k).now ≤ (witInput (k + 1)).now := by
    intro k
    show 200 * (k + 1) ≤ 200 * (k + 1 + 1)
    omega
  exact ⟨hmono, (c7_timers_bounded witInput hmono).2 2⟩

/-- C8: `sendToBackend` never mutates the sampled state: whatever the
connectivity, all five sampled-data fields pass through unchanged. -/
theorem c8_publisher_frame :
    ∀ (st : LoopState) (c : Bool),
      (sendToBackend st c).1.currentReading = st.currentReading ∧
      (sendToBackend st c).1.lastReading = st.lastReading ∧
      (sendToBackend st c).1.eventCount = st.eventCount ∧
      (sendToBackend st c).1.gasRaw = st.gasRaw ∧
      (sendToBackend st c).1.gasStatus = st.gasStatus := by
  intro st c
  rw [sendToBackend_fst]
  exact ⟨rfl, rfl, rfl, rfl, rfl⟩

/-- C9: in an iteration where both timers are due and WiFi is connected,
the sensor-read block runs first, so the published body is built from the
state updated by this same iteration's sample. -/
theorem c9_sample_before_publish :
    ∀ (st : LoopState) (inp : Input),
      sampleDueAt st.lastReadTime inp.now →
      sendDueAt st.lastSendTime inp.now →
      inp.connected = true →
      (loopStep st inp).2 = some
        { method := "POST"
          url := BACKEND_URL
          headers :=
            [("Content-Type", "application/json"),
             ("Authorization", "Bearer " ++ API_KEY)]
          body := buildPayload (sampleStep st inp) } := by
  intro st inp hs hp hc
  show (publishStep (if sampleDueAt st.lastReadTime inp.now then sampleStep st inp else st) inp).2 = _
  rw [if_pos hs]
  unfold publishStep
  rw [sampleStep_lastSendTime, if_pos hp]
  unfold sendToBackend
  rw [hc, if_pos rfl]
  rfl

/-- Witness for C9: from the initial state at clock 200 with the pin LOW
(triggered) and gas 4000, both timers are due and the emitted request
body is built from this iteration's sample. -/
theorem c9_sample_before_publish_witness :
    sampleDueAt initState.lastReadTime (Input.mk 200 false 4000 true).now ∧
    sendDueAt initState.lastSendTime (Input.mk 200 false 4000 true).now ∧
    (loopStep initState (Input.mk 200 false 4000 true)).2 = some
      { method := "POST"
        url := BACKEND_URL
        headers :=
          [("Content-Type", "application/json"),
           ("Authorization", "Bearer " ++ API_KEY)]
        body := buildPayload (sampleStep initState (Input.mk 200 false 4000 true)) } :=
  ⟨by decide, by decide,
   c9_sample_before_publish initState (Input.mk 200 false 4000 true)
     (by decide) (by decide) rfl⟩

/-- C10: the due-checks use unsigned 32-bit modular subtraction, so for
every pair of a past timer value and a current clock value — including
after the millisecond counter passes `2 ^ 32` — the sample (respectively
send) check holds exactly when the elapsed time modulo `2 ^ 32` is at
least `READ_INTERVAL` (respectively `SEND_INTERVAL`). -/
theorem c10_wraparound :
    ∀ t1 t2 : ℕ, t1 ≤ t2 →
      (sampleDueAt t1 t2 ↔ READ_INTERVAL ≤ (t2 - t1) % ULONG_MOD) ∧
      (sendDueAt t1 t2 ↔ SEND_INTERVAL ≤ (t2 - t1) % ULONG_MOD) := by
  intro t1 t2 h
  unfold sampleDueAt sendDueAt
  rw [sub32_mod_eq t1 t2 h]
  exact ⟨Iff.rfl, Iff.rfl⟩

/-- Witness for C10 across a counter wrap: the timer was last set 10 ms
before the 32-bit counter wrapped and the clock now reads 25 ms after the
wrap, so 35 ms have elapsed: the sample check fires and the send check
does not. -/
theorem c10_wraparound_witness :
    (4294967286 : ℕ) ≤ 4294967321 ∧
    (sampleDueAt 4294967286 4294967321 ↔
      READ_INTERVAL ≤ (4294967321 - 4294967286) % ULONG_MOD) ∧
    (sendDueAt 4294967286 4294967321 ↔
      SEND_INTERVAL ≤ (4294967321 - 4294967286) % ULONG_MOD) ∧
    sampleDueAt 4294967286 4294967321 ∧
    ¬ sendDueAt 4294967286 4294967321 :=
  ⟨by decide,
   (c10_wraparound 4294967286 4294967321 (by decide)).1,
   (c10_wraparound 4294967286 4294967321 (by decide)).2,
   by decide, by decide⟩
